import Mathlib

/-!
Verification development for the CDP schema-to-binding compiler
(`build/generate.py`) and its generated module (`cdp/security.py`).

The Python source is shallowly embedded: each Python function or method is
translated into an executable Lean definition of the same name.  Python
exceptions are modelled with `Except PyErr`; Python truthiness of optional
strings and lists is modelled explicitly; Python string utilities
(`str.join`, `str.split`, `textwrap.indent`, `inflection.underscore`) are
implemented over `List Char` so that the emitted code text can be reasoned
about both concretely and symbolically.
-/

/-- Exceptions raised by the generator or by the generated runtime code.
`keyError` models a Python `KeyError` (missing dict or enum key),
`valueError` a `ValueError` (failed enum lookup by value, failed tuple
unpacking), `typeError` a `TypeError` (calling the non-callable
`NotImplemented` constant, iterating a non-list), `attributeError` an
`AttributeError` (attribute access on `None`), and `notImplementedError`
a `NotImplementedError`. -/
inductive PyErr where
  | keyError
  | valueError
  | typeError
  | attributeError
  | notImplementedError
deriving DecidableEq, Repr

/-- Truthiness of a Python value that is either `None` or a string:
`None` and the empty string are falsy, every other string is truthy. -/
def pyTruthyStr (s : Option String) : Bool :=
  match s with
  | none => false
  | some s => !s.isEmpty

/-- Truthiness of a Python value that is either `None` or a list:
`None` and the empty list are falsy. -/
def pyTruthyList {α : Type} (l : Option (List α)) : Bool :=
  match l with
  | none => false
  | some xs => !xs.isEmpty

/-- ASCII uppercase test, as used by the regexes of `inflection.underscore`. -/
def isUpperAZ (c : Char) : Bool := (decide ('A' ≤ c)) && (decide (c ≤ 'Z'))

/-- ASCII lowercase test, as used by the regexes of `inflection.underscore`. -/
def isLowerAZ (c : Char) : Bool := (decide ('a' ≤ c)) && (decide (c ≤ 'z'))

/-- ASCII digit test, as used by the regexes of `inflection.underscore`. -/
def isDigit09 (c : Char) : Bool := (decide ('0' ≤ c)) && (decide (c ≤ '9'))

/-- First rewriting pass of `inflection.underscore`: the regex substitution
`([A-Z]+)([A-Z][a-z])` to `\1_\2`, i.e. an underscore is inserted before an
uppercase letter that follows an uppercase letter and is itself followed by
a lowercase letter. -/
def underscorePass1 : List Char → List Char
  | a :: b :: c :: rest =>
    if isUpperAZ a && isUpperAZ b && isLowerAZ c then
      a :: '_' :: underscorePass1 (b :: c :: rest)
    else
      a :: underscorePass1 (b :: c :: rest)
  | l => l

/-- Second rewriting pass of `inflection.underscore`: the regex substitution
`([a-z\d])([A-Z])` to `\1_\2`, i.e. an underscore is inserted between a
lowercase letter or digit and an uppercase letter. -/
def underscorePass2 : List Char → List Char
  | a :: b :: rest =>
    if (isLowerAZ a || isDigit09 a) && isUpperAZ b then
      a :: '_' :: underscorePass2 (b :: rest)
    else
      a :: underscorePass2 (b :: rest)
  | l => l

/-- The naming-convention collaborator `inflection.underscore`: two regex
passes, then `-` is replaced by `_`, then the result is lowercased. -/
def underscore (w : String) : String :=
  String.mk (((underscorePass2 (underscorePass1 w.data)).map
    (fun c => if c = '-' then '_' else c)).map Char.toLower)

/-- Python `str.split(sep)` for a one-character separator, over `List Char`.
Like in Python, the empty input yields one empty field, and every separator
occurrence closes the current field. -/
def pySplitChar (sep : Char) : List Char → List (List Char)
  | [] => [[]]
  | c :: rest =>
    if c = sep then
      [] :: pySplitChar sep rest
    else
      match pySplitChar sep rest with
      | l :: ls => (c :: l) :: ls
      | [] => [[c]]

/-- Python `sep.join(parts)`. -/
def pyJoin (sep : String) : List String → String
  | [] => ""
  | [x] => x
  | x :: xs => x ++ sep ++ pyJoin sep xs

/-- A line is prefixed by `textwrap.indent` exactly when it has a
non-whitespace character (the default predicate `line.strip()`). -/
def lineHasContent (l : List Char) : Bool := l.any (fun c => !c.isWhitespace)

/-- The helper `indent(s, n)` of `generate.py`: `textwrap.indent` with a
prefix of `n` spaces.  The text is split at newlines; every line holding a
non-whitespace character is prefixed with the spaces. -/
def indentStr (s : String) (n : Nat) : String :=
  pyJoin "\n" ((pySplitChar '\n' s.data).map
    (fun l =>
      if lineHasContent l then String.mk (List.replicate n ' ') ++ String.mk l
      else String.mk l))

/-- The helper `inline_doc(description)` of `generate.py`: an empty result
for a falsy description, otherwise each line becomes a `#:` comment line. -/
def inline_doc (description : Option String) : String :=
  if pyTruthyStr description then
    pyJoin "" ((pySplitChar '\n' (description.getD "").data).map
      (fun l => "#: " ++ String.mk l ++ "\n"))
  else ""

/-- The helper `docstring(description)` of `generate.py`: an empty result
for a falsy description, otherwise the text wrapped in triple quotes. -/
def docstring (description : Option String) : String :=
  if pyTruthyStr description then
    "\x27\x27\x27\n" ++ description.getD "" ++ "\n\x27\x27\x27"
  else ""

/-- The reference resolver `ref_to_python(ref)` of `generate.py`.  When the
ref contains a dot it is split at every dot and unpacked into exactly two
parts (Python raises `ValueError` when the unpacking fails, i.e. when there
is more than one dot); the domain part is passed through `underscore` and
the type part is kept verbatim.  A ref without a dot, including the empty
ref, is returned unchanged. -/
def ref_to_python (ref : String) : Except PyErr String :=
  if ref.data.contains '.' then
    match pySplitChar '.' ref.data with
    | [domain, subtype] =>
      Except.ok (underscore (String.mk domain) ++ "." ++ String.mk subtype)
    | _ => Except.error PyErr.valueError
  else
    Except.ok ref

/-- The JSON-like wire values exchanged by the generated module. -/
inductive Json where
  | null
  | bool (b : Bool)
  | num (n : Int)
  | str (s : String)
  | arr (elts : List Json)
  | obj (entries : List (String × Json))

/-- The dict type `T_JSON_DICT` of the (absent) helper module `cdp/util.py`.
Modelled from the spec: the wire form is a string-keyed map; Python dicts
preserve insertion order, so the map is an ordered association list whose
keys are distinct in all generated uses. -/
abbrev T_JSON_DICT := List (String × Json)

/-- Python `json[key]` on a dict: the value under the first matching key,
`KeyError` when the key is absent. -/
def dictGet (d : T_JSON_DICT) (k : String) : Except PyErr Json :=
  match d.find? (fun kv => kv.1 == k) with
  | some kv => Except.ok kv.2
  | none => Except.error PyErr.keyError

/-- Python `key in json` on a dict. -/
def dictHas (d : T_JSON_DICT) (k : String) : Bool :=
  (d.find? (fun kv => kv.1 == k)).isSome

/-- The keys of a wire object, in order; non-objects have no keys. -/
def jsonKeys : Json → List String
  | .obj kvs => kvs.map Prod.fst
  | _ => []

mutual

/-- Python `str(v)` on a wire value.  On a string it is the identity, which
is the only case the generated module exercises; the scalar cases follow
Python, and container values render their elements recursively. -/
def pyStr : Json → String
  | .str s => s
  | .null => "None"
  | .bool true => "True"
  | .bool false => "False"
  | .num n => toString n
  | .arr xs => "[" ++ pyStrList xs ++ "]"
  | .obj kvs => "\x7b" ++ pyStrObj kvs ++ "\x7d"

/-- Comma-joined rendering of list elements for `pyStr`. -/
def pyStrList : List Json → String
  | [] => ""
  | [x] => pyStr x
  | x :: xs => pyStr x ++ ", " ++ pyStrList xs

/-- Comma-joined rendering of object entries for `pyStr`. -/
def pyStrObj : List (String × Json) → String
  | [] => ""
  | [kv] => kv.1 ++ ": " ++ pyStr kv.2
  | kv :: kvs => kv.1 ++ ": " ++ pyStr kv.2 ++ ", " ++ pyStrObj kvs

end

/-- Python iteration over a wire value that the generated code expects to
be a list; iterating anything else raises `TypeError`. -/
def asPyList : Json → Except PyErr (List Json)
  | .arr xs => Except.ok xs
  | _ => Except.error PyErr.typeError

/-- The enum `SecurityState` of `cdp/security.py` (lines 52-67). -/
inductive SecurityState where
  | UNKNOWN
  | NEUTRAL
  | INSECURE
  | SECURE
  | INFO
deriving DecidableEq, Repr

/-- The wire string stored as each member value of `SecurityState`. -/
def SecurityState.value : SecurityState → String
  | .UNKNOWN => "unknown"
  | .NEUTRAL => "neutral"
  | .INSECURE => "insecure"
  | .SECURE => "secure"
  | .INFO => "info"

/-- Method `SecurityState.to_json`: `return self.value`. -/
def SecurityState.to_json (s : SecurityState) : String := s.value

/-- The Python enum constructor `SecurityState(value)`: linear lookup of a
member by its stored value, raising `ValueError` when no member matches. -/
def SecurityState.fromValue (s : String) : Except PyErr SecurityState :=
  if s = SecurityState.UNKNOWN.value then Except.ok .UNKNOWN
  else if s = SecurityState.NEUTRAL.value then Except.ok .NEUTRAL
  else if s = SecurityState.INSECURE.value then Except.ok .INSECURE
  else if s = SecurityState.SECURE.value then Except.ok .SECURE
  else if s = SecurityState.INFO.value then Except.ok .INFO
  else Except.error PyErr.valueError

/-- Method `SecurityState.from_json`: `return cls(json)`.  A non-string
wire value equals no member value, so it also raises `ValueError`. -/
def SecurityState.from_json : Json → Except PyErr SecurityState
  | .str s => SecurityState.fromValue s
  | _ => Except.error PyErr.valueError

/-- The enum `MixedContentType` of `cdp/security.py` (lines 35-49). -/
inductive MixedContentType where
  | BLOCKABLE
  | OPTIONALLY_BLOCKABLE
  | NONE
deriving DecidableEq, Repr

/-- The wire string stored as each member value of `MixedContentType`. -/
def MixedContentType.value : MixedContentType → String
  | .BLOCKABLE => "blockable"
  | .OPTIONALLY_BLOCKABLE => "optionally-blockable"
  | .NONE => "none"

/-- Method `MixedContentType.to_json`: `return self.value`. -/
def MixedContentType.to_json (m : MixedContentType) : String := m.value

/-- The Python enum constructor `MixedContentType(value)`: linear lookup of
a member by its stored value, raising `ValueError` when no member
matches. -/
def MixedContentType.fromValue (s : String) : Except PyErr MixedContentType :=
  if s = MixedContentType.BLOCKABLE.value then Except.ok .BLOCKABLE
  else if s = MixedContentType.OPTIONALLY_BLOCKABLE.value then Except.ok .OPTIONALLY_BLOCKABLE
  else if s = MixedContentType.NONE.value then Except.ok .NONE
  else Except.error PyErr.valueError

/-- Method `MixedContentType.from_json`: `return cls(json)`. -/
def MixedContentType.from_json : Json → Except PyErr MixedContentType
  | .str s => MixedContentType.fromValue s
  | _ => Except.error PyErr.valueError

/-- The dataclass `SecurityStateExplanation` of `cdp/security.py`
(lines 70-118): one required reference field, four required strings, one
required array of primitives, and one optional array of primitives. -/
structure SecurityStateExplanation where
  security_state : SecurityState
  title : String
  summary : String
  description : String
  mixed_content_type : MixedContentType
  certificate : List String
  recommendations : Option (List String) := none
deriving DecidableEq

/-- Method `SecurityStateExplanation.to_json` (lines 96-106): required
fields are written unconditionally in declaration order; the optional
`recommendations` key is written only when the field is not `None`. -/
def SecurityStateExplanation.to_json (x : SecurityStateExplanation) : T_JSON_DICT :=
  [("securityState", Json.str x.security_state.to_json),
   ("title", Json.str x.title),
   ("summary", Json.str x.summary),
   ("description", Json.str x.description),
   ("mixedContentType", Json.str x.mixed_content_type.to_json),
   ("certificate", Json.arr (x.certificate.map Json.str))] ++
  (match x.recommendations with
   | some rs => [("recommendations", Json.arr (rs.map Json.str))]
   | none => [])

/-- Method `SecurityStateExplanation.from_json` (lines 108-118): each field
is read back from the wire dict, strings through `str(...)`, the reference
fields through the corresponding `from_json`, arrays element-wise, and the
optional key through an `in json` guard. -/
def SecurityStateExplanation.from_json (json : T_JSON_DICT) :
    Except PyErr SecurityStateExplanation := do
  let v1 ← dictGet json "securityState"
  let security_state ← SecurityState.from_json v1
  let title := pyStr (← dictGet json "title")
  let summary := pyStr (← dictGet json "summary")
  let description := pyStr (← dictGet json "description")
  let v5 ← dictGet json "mixedContentType"
  let mixed_content_type ← MixedContentType.from_json v5
  let v6 ← dictGet json "certificate"
  let certElts ← asPyList v6
  let certificate := certElts.map pyStr
  let recommendations ←
    if dictHas json "recommendations" then do
      let v7 ← dictGet json "recommendations"
      let recElts ← asPyList v7
      Except.ok (some (recElts.map pyStr))
    else
      Except.ok none
  Except.ok (SecurityStateExplanation.mk security_state title summary
    description mixed_content_type certificate recommendations)

/-- The dataclass `CdpItemType` of `generate.py` (lines 110-128): the item
descriptor of a repeated value, read from `type.get(...)` so either field
may be absent. -/
structure CdpItemType where
  type : Option String
  ref : Option String
deriving DecidableEq, Repr

/-- The dataclass `CdpProperty` of `generate.py` (lines 131-172), also the
base class of command parameters and returns. -/
structure CdpProperty where
  name : String
  description : Option String
  type : Option String
  ref : Option String
  enum : Option (List String)
  items : Option CdpItemType
  optional : Bool
deriving DecidableEq, Repr

/-- The enum `CdpPrimitiveType` of `generate.py` (lines 99-107):
`CdpPrimitiveType[t].value`, raising `KeyError` when `t` is absent or names
no member. -/
def CdpPrimitiveType.lookupValue : Option String → Except PyErr String
  | some "any" => Except.ok "typing.Any"
  | some "array" => Except.ok "typing.List"
  | some "boolean" => Except.ok "bool"
  | some "integer" => Except.ok "int"
  | some "number" => Except.ok "float"
  | some "object" => Except.ok "dict"
  | some "string" => Except.ok "str"
  | _ => Except.error PyErr.keyError

/-- Property `CdpItemType.py_annotation` (lines 116-124): a truthy `type`
selects the primitive mapping, otherwise the ref is resolved and quoted
(a `None` ref fails inside `ref_to_python`, modelled as `TypeError`). -/
def CdpItemType.pyAnn (it : CdpItemType) : Except PyErr String :=
  if pyTruthyStr it.type then
    CdpPrimitiveType.lookupValue it.type
  else
    match it.ref with
    | none => Except.error PyErr.typeError
    | some r => do
      let py_ref ← ref_to_python r
      Except.ok ("\x27" ++ py_ref ++ "\x27")

/-- Property `CdpProperty.py_name` (lines 142-145). -/
def CdpProperty.py_name (p : CdpProperty) : String := underscore p.name

/-- Property `CdpProperty.py_annotation` (lines 147-159): arrays defer to
the item descriptor (an absent descriptor raises `AttributeError`), truthy
refs are resolved and quoted, and anything else uses the primitive mapping;
an optional property is wrapped in `typing.Optional`. -/
def CdpProperty.pyAnn (p : CdpProperty) : Except PyErr String := do
  let ann ←
    if p.type = some "array" then
      match p.items with
      | none => Except.error PyErr.attributeError
      | some it => do
        let ia ← it.pyAnn
        Except.ok ("typing.List[" ++ ia ++ "]")
    else if pyTruthyStr p.ref then do
      let py_ref ← ref_to_python (p.ref.getD "")
      Except.ok ("\x27" ++ py_ref ++ "\x27")
    else
      CdpPrimitiveType.lookupValue p.type
  Except.ok (if p.optional then "typing.Optional[" ++ ann ++ "]" else ann)

/-- Method `CdpProperty.generate_decl` (lines 174-186). -/
def CdpProperty.generate_decl (p : CdpProperty) : Except PyErr String := do
  let ann ← p.pyAnn
  let code := inline_doc p.description ++ p.py_name ++ ": " ++ ann
  Except.ok (if p.optional then code ++ " = None" else code)

/-- Method `CdpProperty.generate_to_json` (lines 188-210): an item
descriptor with a truthy ref maps `to_json` over the elements, an item
descriptor without one raises `NotImplementedError`; without an item
descriptor a truthy ref invokes `to_json` on the value and otherwise the
raw value is assigned; an optional property wraps the assignment in a
None-guard. -/
def CdpProperty.generate_to_json (p : CdpProperty) (dict_ : String)
    (use_self : Bool) : Except PyErr String := do
  let self_ref := if use_self then "self." else ""
  let assign ←
    match p.items with
    | some it =>
      if pyTruthyStr it.ref then
        Except.ok (dict_ ++ "[\x27" ++ p.name ++ "\x27] = [i.to_json() for i in "
          ++ self_ref ++ p.py_name ++ "]")
      else
        Except.error PyErr.notImplementedError
    | none =>
      if pyTruthyStr p.ref then
        Except.ok (dict_ ++ "[\x27" ++ p.name ++ "\x27] = "
          ++ self_ref ++ p.py_name ++ ".to_json()")
      else
        Except.ok (dict_ ++ "[\x27" ++ p.name ++ "\x27] = " ++ self_ref ++ p.py_name)
  if p.optional then
    Except.ok ("if " ++ self_ref ++ p.py_name ++ " is not None:\n    " ++ assign)
  else
    Except.ok assign

/-- Method `CdpProperty.generate_from_json` (lines 212-232): an item
descriptor with a truthy ref maps the `from_json` constructor over the
elements; an item descriptor without one evaluates `NotImplemented()`,
which in Python raises `TypeError` because the `NotImplemented` constant is
not callable; without an item descriptor a truthy ref applies `from_json`
to the looked-up value and otherwise the raw lookup is the expression; an
optional property appends an `in json` guard. -/
def CdpProperty.generate_from_json (p : CdpProperty) : Except PyErr String := do
  let expr ←
    match p.items with
    | some it =>
      if pyTruthyStr it.ref then do
        let py_ref ← ref_to_python (it.ref.getD "")
        Except.ok ("[" ++ py_ref ++ ".from_json(i) for i in json[\x27"
          ++ p.name ++ "\x27]]")
      else
        Except.error PyErr.typeError
    | none =>
      if pyTruthyStr p.ref then do
        let py_ref ← ref_to_python (p.ref.getD "")
        Except.ok (py_ref ++ ".from_json(json[\x27" ++ p.name ++ "\x27])")
      else
        Except.ok ("json[\x27" ++ p.name ++ "\x27]")
  if p.optional then
    Except.ok (expr ++ " if \x27" ++ p.name ++ "\x27 in json else None")
  else
    Except.ok expr

/-- The dataclass `CdpType` of `generate.py` (lines 235-253). -/
structure CdpType where
  id : String
  description : Option String
  type : String
  enum : Option (List String)
  properties : List CdpProperty
deriving DecidableEq, Repr

/-- The property list of `generate_class_code` after line 346,
`props.sort(key=operator.attrgetter(...))`: a stable sort by the boolean
`optional` flag (`False` before `True`), modelled by `List.mergeSort`, which
is stable like the Python sort. -/
def CdpType.sortedProps (t : CdpType) : List CdpProperty :=
  t.properties.mergeSort (fun p q => !p.optional || q.optional)

/-- The schema-declared property order of a struct entity, by wire name. -/
def CdpType.schemaPropOrder (t : CdpType) : List String :=
  t.properties.map CdpProperty.name

/-- The order in which `generate_class_code` emits property declarations
(line 347 iterates the sorted list), by wire name. -/
def CdpType.declPropOrder (t : CdpType) : List String :=
  t.sortedProps.map CdpProperty.name

/-- The order in which `generate_class_code` emits the `to_json` field
assignments (line 356 iterates the same sorted list), by wire name. -/
def CdpType.toJsonPropOrder (t : CdpType) : List String :=
  t.sortedProps.map CdpProperty.name

/-- The `to_json` assignment statements emitted by `generate_class_code`
(line 356), in emission order. -/
def CdpType.toJsonAssigns (t : CdpType) : Except PyErr (List String) :=
  t.sortedProps.mapM (fun p => p.generate_to_json "json" true)

/-- Method `CdpType.generate_enum_code` (lines 296-325). -/
def CdpType.generate_enum_code (t : CdpType) : String :=
  let def_to_json := "def to_json(self) -> str:\n    return self.value"
  let def_from_json := "@classmethod\ndef from_json(cls, json: str) -> \x27"
    ++ t.id ++ "\x27:\n    return cls(json)"
  let code := "class " ++ t.id ++ "(enum.Enum):\n"
  let doc := docstring t.description
  let code := if !doc.isEmpty then code ++ indentStr doc 4 ++ "\n" else code
  let code := code ++ pyJoin "" ((t.enum.getD []).map (fun m =>
    indentStr ((underscore m).toUpper ++ " = \"" ++ m ++ "\"\n") 4))
  code ++ "\n" ++ indentStr def_to_json 4 ++ "\n\n" ++ indentStr def_from_json 4

/-- Method `CdpType.generate_primitive_code` (lines 269-294). -/
def CdpType.generate_primitive_code (t : CdpType) : Except PyErr String := do
  let py_type ← CdpPrimitiveType.lookupValue (some t.type)
  let def_to_json := "def to_json(self) -> " ++ py_type ++ ":\n    return self"
  let def_from_json := "@classmethod\ndef from_json(cls, json: " ++ py_type
    ++ ") -> \x27" ++ t.id ++ "\x27:\n    return cls(json)"
  let def_repr := "def __repr__(self):\n    return \x27" ++ t.id
    ++ "(\x7b\x7d)\x27.format(super().__repr__())"
  let code := "class " ++ t.id ++ "(" ++ py_type ++ "):\n"
  let doc := docstring t.description
  let code := if !doc.isEmpty then code ++ indentStr doc 4 ++ "\n" else code
  Except.ok (code ++ indentStr def_to_json 4 ++ "\n\n"
    ++ indentStr def_from_json 4 ++ "\n\n" ++ indentStr def_repr 4)

/-- Method `CdpType.generate_class_code` (lines 327-383): declarations in
the required-first sorted order, the `to_json` body in the same sorted
order, and the `from_json` keyword arguments in the original
schema-declared order (line 370 iterates `self.properties`). -/
def CdpType.generate_class_code (t : CdpType) : Except PyErr String := do
  let code := "@dataclass\nclass " ++ t.id ++ ":\n"
  let doc := docstring t.description
  let code := if !doc.isEmpty then code ++ indentStr doc 4 ++ "\n" else code
  let props := t.sortedProps
  let decls ← props.mapM CdpProperty.generate_decl
  let code := code ++ pyJoin "\n\n" (decls.map (fun d => indentStr d 4)) ++ "\n\n"
  let def_to_json := "def to_json(self) -> T_JSON_DICT:\n    json: T_JSON_DICT = dict()\n"
  let assigns ← props.mapM (fun p => p.generate_to_json "json" true)
  let def_to_json := def_to_json ++ indentStr (pyJoin "\n" assigns) 4
    ++ "\n" ++ indentStr "return json" 4
  let code := code ++ indentStr def_to_json 4 ++ "\n\n"
  let def_from_json := "@classmethod\ndef from_json(cls, json: T_JSON_DICT) -> \x27"
    ++ t.id ++ "\x27:\n    return cls(\n"
  let fromArgs ← t.properties.mapM (fun p => do
    let e ← p.generate_from_json
    Except.ok (p.name ++ "=" ++ e ++ ","))
  let def_from_json := def_from_json ++ indentStr (pyJoin "\n" fromArgs) 8
    ++ "\n" ++ indentStr ")" 4
  Except.ok (code ++ indentStr def_from_json 4)

/-- Method `CdpType.generate_code` (lines 255-267): a truthy enum list
selects enum emission, then non-empty properties select class emission,
otherwise the type is a primitive alias. -/
def CdpType.generate_code (t : CdpType) : Except PyErr String :=
  if pyTruthyList t.enum then Except.ok t.generate_enum_code
  else if !t.properties.isEmpty then t.generate_class_code
  else t.generate_primitive_code

/-- Method `CdpParameter.generate_code` (lines 412-425): the declaration of
one parameter in the emitted function header. -/
def CdpParameter.generate_code (p : CdpProperty) : Except PyErr String := do
  let py_type ←
    if pyTruthyStr p.ref then do
      let r ← ref_to_python (p.ref.getD "")
      Except.ok ("\x27" ++ r ++ "\x27")
    else
      CdpPrimitiveType.lookupValue p.type
  let py_type := if p.optional then "typing.Optional[" ++ py_type ++ "]" else py_type
  let code := p.py_name ++ ": " ++ py_type
  Except.ok (if p.optional then code ++ " = None" else code)

/-- Method `CdpParameter.generate_doc` (lines 427-430); a `None` description
raises `AttributeError` on the `replace` call. -/
def CdpParameter.generate_doc (p : CdpProperty) : Except PyErr String :=
  match p.description with
  | none => Except.error PyErr.attributeError
  | some d => Except.ok (":param " ++ p.py_name ++ ": " ++ d.replace "\x60" "\x60\x60")

/-- Property `CdpReturn.py_annotation` (lines 435-449): only an item
descriptor with a truthy ref is supported; every other shape raises
`NotImplementedError`. -/
def CdpReturn.pyAnn (p : CdpProperty) : Except PyErr String :=
  match p.items with
  | some it =>
    if pyTruthyStr it.ref then do
      let py_ref ← ref_to_python (it.ref.getD "")
      Except.ok ("typing.List[\x27" ++ py_ref ++ "\x27]")
    else
      Except.error PyErr.notImplementedError
  | none => Except.error PyErr.notImplementedError

/-- Method `CdpReturn.generate_doc` (lines 451-454). -/
def CdpReturn.generate_doc (p : CdpProperty) : Except PyErr String :=
  match p.description with
  | none => Except.error PyErr.attributeError
  | some d => Except.ok (":returns: " ++ d.replace "\x60" "\x60\x60")

/-- The dataclass `CdpCommand` of `generate.py` (lines 457-485). -/
structure CdpCommand where
  name : String
  description : Option String
  experimental : Bool
  parameters : List CdpProperty
  returns : List CdpProperty
  domain : String
deriving DecidableEq, Repr

/-- Property `CdpCommand.py_name` (lines 467-470). -/
def CdpCommand.py_name (c : CdpCommand) : String := underscore c.name

/-- The dedented `yield_code` template of `CdpCommand.generate_code`
(lines 526-531): the assembled message dict always carries both the
`method` entry and the `params` entry, followed by the single
`json = yield cmd_dict` suspension. -/
def yieldCode (domain name : String) : String :=
  "cmd_dict: T_JSON_DICT = \x7b\n    \x27method\x27: \x27" ++ domain ++ "." ++ name
  ++ "\x27,\n    \x27params\x27: params,\n\x7d\njson = yield cmd_dict"

/-- The return-annotation selection of `CdpCommand.generate_code`
(lines 490-495): zero returns and more than one return raise
`NotImplementedError`; exactly one return uses its `CdpReturn`
annotation. -/
def CdpCommand.retAnn : List CdpProperty → Except PyErr String
  | [] => Except.error PyErr.notImplementedError
  | [r] => CdpReturn.pyAnn r
  | _ => Except.error PyErr.notImplementedError

/-- The returns section of the docstring in `CdpCommand.generate_code`
(lines 509-514): with exactly one return its doc line is appended; with
more than one return the code raises `NotImplementedError` (that branch is
unreachable, the annotation selection has already raised). -/
def CdpCommand.docWithReturns (returns : List CdpProperty) (doc : String) :
    Except PyErr String :=
  match returns with
  | [] => Except.ok doc
  | [r] => do
    let rd ← CdpReturn.generate_doc r
    Except.ok (doc ++ "\n" ++ rd)
  | _ => Except.error PyErr.notImplementedError

/-- Method `CdpCommand.generate_code` (lines 487-539): zero returns and
more than one return raise `NotImplementedError` up front; the body builds
the `params` dict, always appends the `yield_code` template, and finishes
with the return expression joined over the returns. -/
def CdpCommand.generate_code (c : CdpCommand) : Except PyErr String := do
  let rt ← CdpCommand.retAnn c.returns
  let ret_type := "typing.Generator[T_JSON_DICT,T_JSON_DICT," ++ rt ++ "]"
  let pcodes ← c.parameters.mapM CdpParameter.generate_code
  let code := "def " ++ c.py_name ++ "(\n"
    ++ indentStr (pyJoin ",\n" pcodes) 8 ++ "\n"
    ++ indentStr (") -> " ++ ret_type ++ ":\n") 4
  let doc := if pyTruthyStr c.description then c.description.getD "" ++ "\n\n" else ""
  let pdocs ← c.parameters.mapM CdpParameter.generate_doc
  let doc ← CdpCommand.docWithReturns c.returns (doc ++ pyJoin "\n" pdocs)
  let code := if !doc.isEmpty then code ++ indentStr (docstring (some doc)) 4 ++ "\n" else code
  let code := code ++ indentStr "params: T_JSON_DICT = dict()" 4 ++ "\n"
  let assigns ← c.parameters.mapM (fun p => p.generate_to_json "params" false)
  let code := code ++ indentStr (pyJoin "\n" assigns) 4 ++ "\n"
  let code := code ++ indentStr (yieldCode c.domain c.name) 4 ++ "\n"
  let exprs ← c.returns.mapM CdpProperty.generate_from_json
  Except.ok (code ++ indentStr ("return " ++ pyJoin ", " exprs) 4)

/-- The dataclass `CdpEvent` of `generate.py` (lines 542-551). -/
structure CdpEvent where
  name : String
  description : Option String
  parameters : List CdpProperty
deriving DecidableEq, Repr

/-- Method `CdpEvent.generate_code` (lines 549-551): event emission is a
placeholder that produces only the text `TODO`. -/
def CdpEvent.generate_code (_ : CdpEvent) : String := "TODO"

/-- The dataclass `CdpDomain` of `generate.py` (lines 554-562). -/
structure CdpDomain where
  domain : String
  experimental : Bool
  dependencies : List String
  types : List CdpType
  commands : List CdpCommand
  events : List CdpEvent
deriving Repr

/-- A raw `items` record of the schema JSON, as consumed by
`CdpItemType.from_json` (lines 126-128) through `type.get(...)`. -/
structure RawItems where
  type : Option String
  ref : Option String
deriving DecidableEq, Repr

/-- Classmethod `CdpItemType.from_json` (lines 126-128). -/
def CdpItemType.from_json (r : RawItems) : CdpItemType :=
  CdpItemType.mk r.type r.ref

/-- A raw property record of the schema JSON, as consumed by
`CdpProperty.from_json` (lines 161-172): `name` is a required key, the
rest are `get` lookups with defaults. -/
structure RawProperty where
  name : String
  description : Option String
  type : Option String
  ref : Option String
  enum : Option (List String)
  items : Option RawItems
  optional : Option Bool
deriving DecidableEq, Repr

/-- Classmethod `CdpProperty.from_json` (lines 161-172). -/
def CdpProperty.from_json (r : RawProperty) : CdpProperty :=
  CdpProperty.mk r.name r.description r.type r.ref r.enum
    (r.items.map CdpItemType.from_json) (r.optional.getD false)

/-- A raw type record of the schema JSON, as consumed by
`CdpType.from_json` (lines 244-253): `id` and `type` are required keys. -/
structure RawType where
  id : String
  description : Option String
  type : String
  enum : Option (List String)
  properties : Option (List RawProperty)
deriving DecidableEq, Repr

/-- Classmethod `CdpType.from_json` (lines 244-253). -/
def CdpType.from_json (r : RawType) : CdpType :=
  CdpType.mk r.id r.description r.type r.enum
    ((r.properties.getD []).map CdpProperty.from_json)

/-- A raw command record of the schema JSON, as consumed by
`CdpCommand.from_json` (lines 472-485): `name` is a required key. -/
structure RawCommand where
  name : String
  description : Option String
  experimental : Option Bool
  parameters : Option (List RawProperty)
  returns : Option (List RawProperty)
deriving DecidableEq, Repr

/-- Classmethod `CdpCommand.from_json` (lines 472-485). -/
def CdpCommand.from_json (r : RawCommand) (domain : String) : CdpCommand :=
  CdpCommand.mk r.name r.description (r.experimental.getD false)
    ((r.parameters.getD []).map CdpProperty.from_json)
    ((r.returns.getD []).map CdpProperty.from_json)
    domain

/-- A raw event record of the schema JSON.  `CdpDomain.from_json` reads the
`events` list of the raw domain but never converts its entries. -/
structure RawEvent where
  name : String
  description : Option String
  parameters : Option (List RawProperty)
deriving DecidableEq, Repr

/-- A raw domain record of the schema JSON, as consumed by
`CdpDomain.from_json` (lines 569-584): `domain` is a required key, the
rest are `get` lookups with defaults. -/
structure RawDomain where
  domain : String
  experimental : Option Bool
  dependencies : Option (List String)
  types : Option (List RawType)
  commands : Option (List RawCommand)
  events : Option (List RawEvent)
deriving Repr

/-- Classmethod `CdpDomain.from_json` (lines 569-584): although the raw
`events` list is read into a local variable at line 574, the constructor at
line 583 is passed a fresh empty list, so the built domain always has no
events. -/
def CdpDomain.from_json (d : RawDomain) : CdpDomain :=
  CdpDomain.mk d.domain (d.experimental.getD false) (d.dependencies.getD [])
    ((d.types.getD []).map CdpType.from_json)
    ((d.commands.getD []).map (fun c => CdpCommand.from_json c d.domain))
    []

/-- The semantics of a generated command body: a Python generator that is
either finished with a result or suspended at a yield, carrying the yielded
message and the continuation applied to the value sent back in. -/
inductive Gen (ρ : Type) where
  | done : ρ → Gen ρ
  | yielded : Json → (Json → Gen ρ) → Gen ρ

/-- Drive a generator with a list of responses, one response per
resumption: the result counts how many yields were resumed before the
generator finished, together with the final value; `none` means the
responses were exhausted while the generator was still suspended. -/
def runGen {ρ : Type} : Gen ρ → List Json → Option (Nat × ρ)
  | .done r, _ => some (0, r)
  | .yielded _ k, resp :: rest =>
    match runGen (k resp) rest with
    | some (n, r) => some (n + 1, r)
    | none => none
  | .yielded _ _, [] => none

/-- The body emitted by `CdpCommand.generate_code` (lines 520-538), as a
generator: after the `params` dict is built, control yields the assembled
`cmd_dict` exactly once (`json = yield cmd_dict`) and the resumed value
feeds the single return expression. -/
def emittedCommandBody {ρ : Type} (cmdDict : Json) (ret : Json → ρ) : Gen ρ :=
  Gen.yielded cmdDict (fun json => Gen.done (ret json))

/-- The `cmd_dict` literal of `security.disable` in `cdp/security.py`
(lines 191-193): the zero-parameter command shipped by the legacy emitter
carries only the `method` entry. -/
def Security.disableCmdDict : Json :=
  Json.obj [("method", Json.str "Security.disable")]

/-- The generated command `security.disable` (lines 187-194): it yields its
`cmd_dict` once and finishes with no result value. -/
def Security.disable : Gen Unit :=
  Gen.yielded Security.disableCmdDict (fun _ => Gen.done ())

/-- The `cmd_dict` literal of `security.enable` in `cdp/security.py`
(lines 201-203). -/
def Security.enableCmdDict : Json :=
  Json.obj [("method", Json.str "Security.enable")]

/-- The generated command `security.enable` (lines 197-204): it yields its
`cmd_dict` once and finishes with no result value. -/
def Security.enable : Gen Unit :=
  Gen.yielded Security.enableCmdDict (fun _ => Gen.done ())

/-- The character sequence of a `params` entry in an assembled message
dict, the key text of line 529 of `generate.py`. -/
def paramsPat : List Char := "\x27params\x27: params".data

/-- Projection of a successful emission result; failed emissions project to
the empty string. -/
def okStr : Except PyErr String → String
  | .ok s => s
  | .error _ => ""

/-- Example property A of the ordering scenario of the spec: required, in
schema position one. -/
def pAlpha : CdpProperty := CdpProperty.mk "alpha" none (some "integer") none none none false

/-- Example property B of the ordering scenario of the spec: optional, in
schema position two. -/
def pBeta : CdpProperty := CdpProperty.mk "beta" none (some "integer") none none none true

/-- Example property C of the ordering scenario of the spec: required, in
schema position three. -/
def pGamma : CdpProperty := CdpProperty.mk "gamma" none (some "integer") none none none false

/-- Example property D of the ordering scenario of the spec: optional, in
schema position four. -/
def pDelta : CdpProperty := CdpProperty.mk "delta" none (some "integer") none none none true

/-- Example struct entity with the schema-declared property order
required, optional, required, optional. -/
def exStruct : CdpType := CdpType.mk "DemoStruct" none "object" none [pAlpha, pBeta, pGamma, pDelta]

/-- The raw IR of the shipped command `Security.disable`: no parameters
and no returns. -/
def exDisableCmd : CdpCommand :=
  CdpCommand.mk "disable" (some "Disables tracking security state changes.") false [] [] "Security"

/-- Example zero-parameter, zero-return command. -/
def exZeroCmd : CdpCommand := CdpCommand.mk "fooBar" none false [] [] "Demo"

/-- The `certificate` property of `SecurityStateExplanation` in the CDP
schema: a required array of primitive strings. -/
def exCertProp : CdpProperty :=
  CdpProperty.mk "certificate" (some "Page certificate.") (some "array") none none
    (some (CdpItemType.mk (some "string") none)) false

/-- Example optional array-of-primitives property. -/
def exHeadersProp : CdpProperty :=
  CdpProperty.mk "headers" none (some "array") none none
    (some (CdpItemType.mk (some "string") none)) true

/-- Example return value whose type is an array of references, the only
return shape `CdpReturn` supports. -/
def exThingsRet : CdpProperty :=
  CdpProperty.mk "things" (some "The things.") (some "array") none none
    (some (CdpItemType.mk none (some "Thing"))) false

/-- Example command with zero parameters and one emittable return. -/
def exCmd5 : CdpCommand := CdpCommand.mk "getThings" none false [] [exThingsRet] "Demo"

/-- Example required boolean parameter with a description. -/
def exIgnoreParam : CdpProperty :=
  CdpProperty.mk "ignore" (some "If true, all certificate errors will be ignored.")
    (some "boolean") none none none false

/-- Example one-parameter command with one emittable return. -/
def exSetCmd : CdpCommand :=
  CdpCommand.mk "setIgnoreCertificateErrors" none false [exIgnoreParam] [exThingsRet] "Security"

theorem exBind_ok {ε α β : Type} (a : α) (f : α → Except ε β) :
    (Except.ok a >>= f : Except ε β) = f a := rfl

theorem exBind_error {ε α β : Type} (e : ε) (f : α → Except ε β) :
    (Except.error e >>= f : Except ε β) = Except.error e := rfl

theorem exBind_ok_iff {ε α β : Type} {x : Except ε α} {f : α → Except ε β} {b : β} :
    (x >>= f) = Except.ok b ↔ ∃ a, x = Except.ok a ∧ f a = Except.ok b := by
  cases x with
  | error e => simp [exBind_error]
  | ok a => simp [exBind_ok]

theorem pyStr_str (s : String) : pyStr (Json.str s) = s := rfl

theorem map_pyStr_comp_str (xs : List String) : xs.map (pyStr ∘ Json.str) = xs := by
  have h : pyStr ∘ Json.str = id := funext fun s => rfl
  rw [h, List.map_id]

theorem securityState_from_json_roundtrip (ss : SecurityState) :
    SecurityState.from_json (Json.str ss.to_json) = Except.ok ss := by
  cases ss <;> rfl

theorem mixedContentType_from_json_roundtrip (m : MixedContentType) :
    MixedContentType.from_json (Json.str m.to_json) = Except.ok m := by
  cases m <;> rfl

theorem pySplitChar_ne_nil (sep : Char) (l : List Char) : pySplitChar sep l ≠ [] := by
  induction l with
  | nil => simp [pySplitChar]
  | cons c rest ih =>
    by_cases hc : c = sep
    · simp [pySplitChar, hc]
    · cases h : pySplitChar sep rest with
      | nil => simp [pySplitChar, hc, h]
      | cons a as => simp [pySplitChar, hc, h]

theorem pySplitChar_append (sep : Char) (a b : List Char) :
    pySplitChar sep (a ++ sep :: b) = pySplitChar sep a ++ pySplitChar sep b := by
  induction a with
  | nil => simp [pySplitChar]
  | cons c cs ih =>
    by_cases hc : c = sep
    · simp [pySplitChar, hc, ih]
    · cases h2 : pySplitChar sep cs with
      | nil => exact absurd h2 (pySplitChar_ne_nil sep cs)
      | cons l ls => simp [pySplitChar, hc, ih, h2]

theorem pySplitChar_no_sep (sep : Char) (l : List Char) (h : l.contains sep = false) :
    pySplitChar sep l = [l] := by
  induction l with
  | nil => rfl
  | cons c cs ih =>
    simp only [List.contains_cons, Bool.or_eq_false_iff, beq_eq_false_iff_ne] at h
    simp [pySplitChar, Ne.symm h.1, ih h.2]

theorem pyJoin_append (sep : String) (A B : List String) (hA : A ≠ []) (hB : B ≠ []) :
    pyJoin sep (A ++ B) = pyJoin sep A ++ sep ++ pyJoin sep B := by
  induction A with
  | nil => simp at hA
  | cons x xs ih =>
    cases xs with
    | nil =>
      cases B with
      | nil => simp at hB
      | cons b bs => simp [pyJoin]
    | cons y ys =>
      simp only [List.cons_append, pyJoin]
      rw [show (y :: ys.append B) = ((y :: ys) ++ B) from rfl, ih (by simp)]
      simp [String.append_assoc]

theorem indentStr_append_nl (s t : String) (n : Nat) :
    indentStr (s ++ "\n" ++ t) n = indentStr s n ++ "\n" ++ indentStr t n := by
  unfold indentStr
  have hd : (s ++ "\n" ++ t).data = s.data ++ '\n' :: t.data := by
    simp [String.data_append]
  rw [hd, pySplitChar_append, List.map_append]
  rw [pyJoin_append "\n" _ _ ?_ ?_]
  · intro hcon
    exact pySplitChar_ne_nil '\n' s.data (List.map_eq_nil_iff.mp hcon)
  · intro hcon
    exact pySplitChar_ne_nil '\n' t.data (List.map_eq_nil_iff.mp hcon)

theorem yieldCode_decomp (d n : String) :
    yieldCode d n =
      ("cmd_dict: T_JSON_DICT = \x7b\n    \x27method\x27: \x27" ++ d ++ "." ++ n ++ "\x27,")
      ++ "\n" ++ ("    \x27params\x27: params," ++ "\n" ++ "\x7d\njson = yield cmd_dict") := by
  unfold yieldCode
  simp only [String.append_assoc]
  rfl

set_option maxHeartbeats 2000000 in
theorem paramsPat_infix_indentYieldCode (d n : String) :
    paramsPat <:+: (indentStr (yieldCode d n) 4).data := by
  rw [yieldCode_decomp, indentStr_append_nl, indentStr_append_nl]
  have h0 : indentStr "    \x27params\x27: params," 4
      = "        \x27params\x27: params," := by decide
  rw [h0]
  have h1 : paramsPat <:+: ("        \x27params\x27: params,").data := by decide
  refine h1.trans ?_
  simp only [String.data_append, List.append_assoc]
  repeat'
    first
    | exact (List.prefix_append _ _).isInfix
    | refine List.IsInfix.trans ?_ ((List.suffix_append _ _).isInfix)

theorem generate_code_params (c : CdpCommand) (s : String)
    (h : CdpCommand.generate_code c = Except.ok s) : paramsPat <:+: s.data := by
  unfold CdpCommand.generate_code at h
  simp only [exBind_ok_iff, Except.ok.injEq] at h
  obtain ⟨rt, hrt, pcodes, hp, doc2, hdoc2, assigns, ha, exprs, he, rexprs, hre, hs⟩ := h
  subst hs
  refine (paramsPat_infix_indentYieldCode c.domain c.name).trans ?_
  simp only [String.data_append, List.append_assoc]
  generalize (indentStr (yieldCode c.domain c.name) 4).data = m
  repeat'
    first
    | exact (List.prefix_append _ _).isInfix
    | refine List.IsInfix.trans ?_ ((List.suffix_append _ _).isInfix)

theorem mergeSort_optional_four (a b c d : CdpProperty)
    (ha : a.optional = false) (hb : b.optional = true)
    (hc : c.optional = false) (hd : d.optional = true) :
    [a, b, c, d].mergeSort (fun p q => !p.optional || q.optional) = [a, c, b, d] := by
  simp [List.mergeSort, ha, hb, hc, hd]

/-- C1: the claim that `to_json` assignments are emitted in the original
schema-declared order fails on the code: `generate_class_code` iterates the
required-first sorted list at line 356, so the struct with schema order
required `alpha`, optional `beta`, required `gamma`, optional `delta`
serializes in the order `alpha, gamma, beta, delta`, not the schema
order. -/
theorem toJson_order_not_schema_order :
    exStruct.schemaPropOrder = ["alpha", "beta", "gamma", "delta"] ∧
    exStruct.toJsonPropOrder = ["alpha", "gamma", "beta", "delta"] ∧
    exStruct.toJsonPropOrder ≠ exStruct.schemaPropOrder := by
  have h : exStruct.sortedProps = [pAlpha, pGamma, pBeta, pDelta] :=
    mergeSort_optional_four pAlpha pBeta pGamma pDelta rfl rfl rfl rfl
  have horder : exStruct.toJsonPropOrder = ["alpha", "gamma", "beta", "delta"] := by
    unfold CdpType.toJsonPropOrder
    rw [h]
    rfl
  refine ⟨rfl, horder, ?_⟩
  rw [horder]
  decide

/-- C1 (amended): for every struct entity whose properties stand in schema
order required A, optional B, required C, optional D, the emitted `to_json`
assignments appear in the required-first order A, C, B, D — the same order
as the declarations, not the schema-declared order. -/
theorem toJson_order_required_first (tid : String) (desc : Option String) (ty : String)
    (en : Option (List String)) (a b c d : CdpProperty)
    (ha : a.optional = false) (hb : b.optional = true)
    (hc : c.optional = false) (hd : d.optional = true) :
    (CdpType.mk tid desc ty en [a, b, c, d]).toJsonPropOrder
      = [a.name, c.name, b.name, d.name] := by
  simp [CdpType.toJsonPropOrder, CdpType.sortedProps,
    mergeSort_optional_four a b c d ha hb hc hd]

/-- C1 witness: the amended ordering law evaluated on the concrete example
struct. -/
theorem toJson_order_required_first_witness :
    exStruct.toJsonPropOrder = ["alpha", "gamma", "beta", "delta"] :=
  toJson_order_required_first "DemoStruct" none "object" none
    pAlpha pBeta pGamma pDelta rfl rfl rfl rfl

/-- C2: the claim that emission succeeds for a command with no returns
fails on the code: `CdpCommand.generate_code` raises `NotImplementedError`
at line 491 for the raw `Security.disable` command. -/
theorem disable_generate_code_raises :
    CdpCommand.generate_code exDisableCmd = Except.error PyErr.notImplementedError := rfl

/-- C2 (amended): for every command whose list of returns is empty,
`CdpCommand.generate_code` fails with `NotImplementedError` instead of
emitting a call; the zero-return behaviour the spec describes is realized
only by the shipped legacy module, whose `security.disable` resumes once
and produces no result value. -/
theorem zero_returns_generate_code_raises :
    (∀ c : CdpCommand, c.returns = [] →
      CdpCommand.generate_code c = Except.error PyErr.notImplementedError) ∧
    (∀ resp : Json, runGen Security.disable [resp] = some (1, ())) := by
  refine ⟨fun c h => ?_, fun resp => rfl⟩
  simp [CdpCommand.generate_code, h, CdpCommand.retAnn, exBind_error]

/-- C2 witness: the amended law evaluated on a concrete zero-return
command. -/
theorem zero_returns_generate_code_raises_witness :
    CdpCommand.generate_code exZeroCmd = Except.error PyErr.notImplementedError :=
  zero_returns_generate_code_raises.1 exZeroCmd rfl

/-- C3: the round-trip law holds for the struct entity
`SecurityStateExplanation` of the generated module: deserializing the
serialization of any constructed instance returns exactly that
instance. -/
theorem securityStateExplanation_roundtrip (x : SecurityStateExplanation) :
    SecurityStateExplanation.from_json x.to_json = Except.ok x := by
  obtain ⟨ss, t, su, d, mct, cert, rec⟩ := x
  cases rec <;>
    simp [SecurityStateExplanation.to_json, SecurityStateExplanation.from_json,
      dictGet, dictHas, asPyList, exBind_ok, pyStr_str,
      map_pyStr_comp_str, securityState_from_json_roundtrip,
      mixedContentType_from_json_roundtrip, List.find?]

/-- C4: the claim that emission succeeds for arrays of primitives fails on
the code: for the `certificate` property of the CDP schema (an array of
strings, no item ref), `generate_to_json` raises `NotImplementedError` at
line 197 and `generate_from_json` raises a `TypeError` by evaluating
`NotImplemented()` at line 223, instead of copying the raw list. -/
theorem primitive_array_emission_raises_counterexample :
    CdpProperty.generate_to_json exCertProp "json" true
        = Except.error PyErr.notImplementedError ∧
      CdpProperty.generate_from_json exCertProp = Except.error PyErr.typeError :=
  ⟨rfl, rfl⟩

/-- C4 (amended): for every property whose value type is an array without
an item ref (an array of primitives), emission fails: the serialize
routine raises `NotImplementedError` and the deserialize routine raises
`TypeError` by calling the non-callable `NotImplemented` constant. -/
theorem primitive_array_emission_raises (p : CdpProperty) (it : CdpItemType)
    (d : String) (u : Bool)
    (hitems : p.items = some it) (href : pyTruthyStr it.ref = false) :
    p.generate_to_json d u = Except.error PyErr.notImplementedError ∧
    p.generate_from_json = Except.error PyErr.typeError := by
  constructor <;>
    simp [CdpProperty.generate_to_json, CdpProperty.generate_from_json,
      hitems, href, exBind_error]

/-- C4 witness: the amended law evaluated on a concrete optional
array-of-strings property. -/
theorem primitive_array_emission_raises_witness :
    CdpProperty.generate_to_json exHeadersProp "params" false
        = Except.error PyErr.notImplementedError ∧
      CdpProperty.generate_from_json exHeadersProp = Except.error PyErr.typeError :=
  primitive_array_emission_raises exHeadersProp (CdpItemType.mk (some "string") none)
    "params" false rfl rfl

/-- C5: the claim that zero-parameter commands assemble a message holding
only the method key fails on the code: `CdpCommand.generate_code` emits
the `yield_code` template unconditionally, so the emitted body of the
concrete zero-parameter command still assembles a message carrying the
`params` entry. -/
theorem zero_params_message_keeps_params_counterexample :
    exCmd5.parameters = [] ∧
    paramsPat <:+: (okStr (CdpCommand.generate_code exCmd5)).data :=
  ⟨rfl, generate_code_params exCmd5 (okStr (CdpCommand.generate_code exCmd5)) rfl⟩

/-- C5 (amended): every command body emitted by `CdpCommand.generate_code`
assembles a message holding the `params` entry, zero parameters included
(the entry is then an empty dict); only the shipped legacy module omits
the entry, as its `security.disable` message with the sole key `method`
shows. -/
theorem generated_message_always_has_params :
    (∀ (c : CdpCommand) (s : String), CdpCommand.generate_code c = Except.ok s →
      paramsPat <:+: s.data) ∧
    jsonKeys Security.disableCmdDict = ["method"] :=
  ⟨generate_code_params, rfl⟩

/-- C5 witness: the amended law evaluated on the concrete one-parameter
command. -/
theorem generated_message_always_has_params_witness :
    paramsPat <:+: (okStr (CdpCommand.generate_code exSetCmd)).data :=
  generated_message_always_has_params.1 exSetCmd
    (okStr (CdpCommand.generate_code exSetCmd)) rfl

/-- C6: for the generated enums, serialization returns the stored wire
string unchanged, and deserializing a wire string that matches no declared
member value fails with a `ValueError` (the concrete realization of
`UnknownEnumVariantError`), never silently defaulting to a member. -/
theorem enum_wire_roundtrip_strict :
    (∀ m : MixedContentType, m.to_json = m.value) ∧
    (∀ s : String, (∀ m : MixedContentType, m.value ≠ s) →
      MixedContentType.from_json (Json.str s) = Except.error PyErr.valueError) ∧
    (∀ ss : SecurityState, ss.to_json = ss.value) ∧
    (∀ s : String, (∀ ss : SecurityState, ss.value ≠ s) →
      SecurityState.from_json (Json.str s) = Except.error PyErr.valueError) := by
  refine ⟨fun m => rfl, fun s h => ?_, fun ss => rfl, fun s h => ?_⟩
  · have h1 : ¬ s = MixedContentType.BLOCKABLE.value := fun hh => h _ hh.symm
    have h2 : ¬ s = MixedContentType.OPTIONALLY_BLOCKABLE.value := fun hh => h _ hh.symm
    have h3 : ¬ s = MixedContentType.NONE.value := fun hh => h _ hh.symm
    simp [MixedContentType.from_json, MixedContentType.fromValue, h1, h2, h3]
  · have h1 : ¬ s = SecurityState.UNKNOWN.value := fun hh => h _ hh.symm
    have h2 : ¬ s = SecurityState.NEUTRAL.value := fun hh => h _ hh.symm
    have h3 : ¬ s = SecurityState.INSECURE.value := fun hh => h _ hh.symm
    have h4 : ¬ s = SecurityState.SECURE.value := fun hh => h _ hh.symm
    have h5 : ¬ s = SecurityState.INFO.value := fun hh => h _ hh.symm
    simp [SecurityState.from_json, SecurityState.fromValue, h1, h2, h3, h4, h5]

/-- C6 witness: deserializing concrete unknown wire strings fails. -/
theorem enum_wire_roundtrip_strict_witness :
    MixedContentType.from_json (Json.str "blokable") = Except.error PyErr.valueError ∧
    SecurityState.from_json (Json.str "very-secure") = Except.error PyErr.valueError :=
  ⟨enum_wire_roundtrip_strict.2.1 "blokable" (by intro m; cases m <;> decide),
   enum_wire_roundtrip_strict.2.2.2 "very-secure" (by intro ss; cases ss <;> decide)⟩

/-- C7: the claim that an empty reference fails with
`MalformedReferenceError` fails on the code: `ref_to_python` returns the
empty reference unchanged, raising nothing. -/
theorem ref_to_python_empty_not_error :
    ref_to_python "" = Except.ok "" ∧
    ∀ e : PyErr, ref_to_python "" ≠ Except.error e := by
  refine ⟨rfl, fun e h => ?_⟩
  simp [ref_to_python] at h

/-- C7 (amended): `ref_to_python` fails (with the `ValueError` of a failed
two-way unpacking) exactly for references holding more than one separator;
a reference with exactly one separator splits into a domain part converted
by `underscore` and a verbatim type part; the empty reference does not
fail but is returned unchanged. -/
theorem ref_to_python_split_behaviour :
    (ref_to_python "" = Except.ok "") ∧
    (∀ d s : String, d.data.contains '.' = false → s.data.contains '.' = false →
      ref_to_python (d ++ "." ++ s) = Except.ok (underscore d ++ "." ++ s)) ∧
    (∀ r : String, 2 < (pySplitChar '.' r.data).length →
      ref_to_python r = Except.error PyErr.valueError) := by
  refine ⟨rfl, fun d s hd hs => ?_, fun r hr => ?_⟩
  · have hdata : (d ++ "." ++ s).data = d.data ++ '.' :: s.data := by
      simp [String.data_append]
    have hcon : (d.data ++ '.' :: s.data).contains '.' = true := by simp
    have hsplit : pySplitChar '.' (d.data ++ '.' :: s.data) = [d.data, s.data] := by
      rw [pySplitChar_append, pySplitChar_no_sep '.' d.data hd,
        pySplitChar_no_sep '.' s.data hs]
      rfl
    have hmk : ∀ t : String, String.mk t.data = t := fun t => by cases t; rfl
    simp [ref_to_python, hdata, hcon, hsplit, hmk]
  · by_cases hc : r.data.contains '.'
    · have hmem : Char.ofNat 46 ∈ r.data := by simpa using hc
      rcases hsp : pySplitChar '.' r.data with _ | ⟨x, _ | ⟨y, _ | ⟨z, rest⟩⟩⟩
      · exact absurd hsp (pySplitChar_ne_nil '.' r.data)
      · rw [hsp] at hr; simp at hr
      · rw [hsp] at hr; simp at hr
      · simp [ref_to_python, hc, hsp, hmem]
    · have := pySplitChar_no_sep '.' r.data (by simpa using hc)
      rw [this] at hr
      simp at hr

/-- C7 witness: the amended behaviour evaluated on concrete references
with one and with two separators. -/
theorem ref_to_python_split_behaviour_witness :
    ref_to_python ("MyDomain" ++ "." ++ "TypeRef")
        = Except.ok (underscore "MyDomain" ++ "." ++ "TypeRef") ∧
      ref_to_python "A.B.C" = Except.error PyErr.valueError :=
  ⟨ref_to_python_split_behaviour.2.1 "MyDomain" "TypeRef" (by decide) (by decide),
   ref_to_python_split_behaviour.2.2 "A.B.C" (by decide)⟩

/-- C8: for every struct entity whose properties stand in schema order
required A, optional B, required C, optional D, the emitted declarations
appear in the order A, C, B, D: all required properties first in schema
order, then all optional properties in schema order. -/
theorem decl_order_required_first (tid : String) (desc : Option String) (ty : String)
    (en : Option (List String)) (a b c d : CdpProperty)
    (ha : a.optional = false) (hb : b.optional = true)
    (hc : c.optional = false) (hd : d.optional = true) :
    (CdpType.mk tid desc ty en [a, b, c, d]).declPropOrder
      = [a.name, c.name, b.name, d.name] := by
  simp [CdpType.declPropOrder, CdpType.sortedProps,
    mergeSort_optional_four a b c d ha hb hc hd]

/-- C8 witness: the declaration ordering evaluated on the concrete example
struct. -/
theorem decl_order_required_first_witness :
    exStruct.declPropOrder = ["alpha", "gamma", "beta", "delta"] :=
  decl_order_required_first "DemoStruct" none "object" none
    pAlpha pBeta pGamma pDelta rfl rfl rfl rfl

/-- C9: the body emitted for every command has exactly one suspension
point: driven with a response, it counts exactly one yield and one resume
before finishing with the deserialized result; with no response supplied
it stays suspended; the shipped `security.enable` behaves the same way. -/
theorem command_single_yield_single_resume :
    (∀ (ρ : Type) (cmdDict : Json) (ret : Json → ρ) (resp : Json) (rest : List Json),
      runGen (emittedCommandBody cmdDict ret) (resp :: rest) = some (1, ret resp)) ∧
    (∀ (ρ : Type) (cmdDict : Json) (ret : Json → ρ),
      runGen (emittedCommandBody cmdDict ret) [] = none) ∧
    (∀ (resp : Json) (rest : List Json),
      runGen Security.enable (resp :: rest) = some (1, ())) :=
  ⟨fun _ _ _ _ _ => rfl, fun _ _ _ => rfl, fun _ _ => rfl⟩

/-- C10: the domain builder discards the raw `events` list, so every built
domain has an empty events list, and event code generation emits only the
placeholder text `TODO`. -/
theorem events_dropped_and_todo :
    (∀ d : RawDomain, (CdpDomain.from_json d).events = []) ∧
    (∀ e : CdpEvent, e.generate_code = "TODO") :=
  ⟨fun _ => rfl, fun _ => rfl⟩
